import Mathlib

/-!
Verification of the orchestration scheduler (`src/orchestration/scheduler.py`)
against its natural-language specification.

The scheduler is embedded shallowly:

* Database tables (`scraped_content`, `processed_content`, `training_jobs`,
  `api_usage`) are lists of row structures.
* A stored timestamp is modelled by `Timestamp`: `dbval` is the chronological
  instant as the database compares it (the DB-side `.gte` / `.lt` filters act
  on stored ISO-8601 strings, which order chronologically), and `pyParse` is
  what Python-side `datetime.fromisoformat(s.replace(Z, +00:00))` followed by
  naive-vs-aware datetime arithmetic yields — `none` models the raise
  (malformed string, or offset-aware timestamp compared with a naive one).
* Each supabase query the scheduler makes is a `Repo` operation returning
  `Except Unit α`; `Repo.fails` is the failure oracle (repository
  unavailable).  A Python `try/except` block is a `match` on the `Except`.
* Queue submissions, Prometheus counters/gauges and the redis queues live in
  `World`; `World.enqueueFails` models `Queue.enqueue` raising and
  `World.queueLenFails` models `len(queue)` raising (redis unreachable).
-/

/-- A stored timestamp: `dbval` is the instant as the database orders it,
`pyParse` is the result of Python-side parsing and naive/aware arithmetic
(`none` when that raises). -/
structure Timestamp where
  dbval : Int
  pyParse : Option Int
  deriving DecidableEq

/-- A row of the `scraped_content` table (fields the scheduler reads). -/
structure ScrapedRow where
  id : Nat
  source : String
  created_at : Timestamp
  deriving DecidableEq

/-- A row of the `processed_content` table (fields the scheduler reads). -/
structure ProcessedRow where
  id : Nat
  original_id : Nat
  source : String
  is_training_ready : Bool
  quality_score : ℚ
  deriving DecidableEq

/-- A row of the `training_jobs` table (the scheduler only reads
`created_at`). -/
structure TrainingJobRow where
  created_at : Timestamp
  deriving DecidableEq

/-- A row of the `api_usage` table (the scheduler only touches
`created_at`, and only through DB-side comparison). -/
structure UsageRow where
  created_at : Int
  deriving DecidableEq

/-- The state repository: the four tables the scheduler queries. -/
structure Database where
  scraped_content : List ScrapedRow
  processed_content : List ProcessedRow
  training_jobs : List TrainingJobRow
  api_usage : List UsageRow
  deriving DecidableEq

/-- Identifier of each distinct supabase read the scheduler performs, used to
key the failure oracle. -/
inductive QueryId where
  | scrapedBySourceSince (source : String)
  | scrapedBySource (source : String)
  | processedOriginBySource (source : String)
  | trainingReadyIds
  | lastTrainingJob
  | scrapedAll
  | processedAll
  deriving DecidableEq

/-- The repository handle: underlying data plus a per-query failure oracle
(`fails q = true` models the corresponding supabase call raising). -/
structure Repo where
  db : Database
  fails : QueryId → Bool

/-- A repository on which every read succeeds. -/
def Repo.honest (db : Database) : Repo :=
  { db := db, fails := fun _ => false }

def hours (n : Int) : Int := n * 3600

def days (n : Int) : Int := n * 86400

/-- `scraped_content.select(id).eq(source, s).gte(created_at, cutoff)`. -/
def Repo.scrapedIdsBySourceSince (r : Repo) (source : String) (cutoff : Int) :
    Except Unit (List Nat) :=
  if r.fails (.scrapedBySourceSince source) then .error ()
  else .ok ((r.db.scraped_content.filter
      (fun row => row.source == source && decide (cutoff ≤ row.created_at.dbval))).map (·.id))

/-- `scraped_content.select(id).eq(source, s)`. -/
def Repo.scrapedIdsBySource (r : Repo) (source : String) : Except Unit (List Nat) :=
  if r.fails (.scrapedBySource source) then .error ()
  else .ok ((r.db.scraped_content.filter (fun row => row.source == source)).map (·.id))

/-- `processed_content.select(original_id).eq(source, s)`. -/
def Repo.processedOriginIdsBySource (r : Repo) (source : String) : Except Unit (List Nat) :=
  if r.fails (.processedOriginBySource source) then .error ()
  else .ok ((r.db.processed_content.filter (fun row => row.source == source)).map (·.original_id))

/-- `processed_content.select(id).eq(is_training_ready, True)`. -/
def Repo.trainingReadyIdList (r : Repo) : Except Unit (List Nat) :=
  if r.fails .trainingReadyIds then .error ()
  else .ok ((r.db.processed_content.filter (·.is_training_ready)).map (·.id))

/-- The stored `created_at` of the most recent training job, i.e. what
`training_jobs.select(created_at).order(created_at, desc).limit(1)` returns
(`none` when the table is empty). -/
def latestTrainingJob (db : Database) : Option Timestamp :=
  db.training_jobs.foldl
    (fun acc row =>
      match acc with
      | none => some row.created_at
      | some t => if t.dbval < row.created_at.dbval then some row.created_at else some t)
    none

/-- `training_jobs.select(created_at).order(created_at, desc).limit(1)`. -/
def Repo.lastTrainingCreatedAt (r : Repo) : Except Unit (Option Timestamp) :=
  if r.fails .lastTrainingJob then .error ()
  else .ok (latestTrainingJob r.db)

/-- `scraped_content.select(source, created_at)` (no filter). -/
def Repo.scrapedAllRows (r : Repo) : Except Unit (List ScrapedRow) :=
  if r.fails .scrapedAll then .error () else .ok r.db.scraped_content

/-- `processed_content.select(source, is_training_ready, quality_score)`. -/
def Repo.processedAllRows (r : Repo) : Except Unit (List ProcessedRow) :=
  if r.fails .processedAll then .error () else .ok r.db.processed_content

/-- `OrchestrationScheduler.should_trigger_scraping` (scheduler.py lines
105-120): count scraped rows of `source` with `created_at >= now - 6h`;
trigger iff that count is `< 10`; any exception yields `False`. -/
def should_trigger_scraping (r : Repo) (now : Int) (source : String) : Bool :=
  let cutoff := now - hours 6
  match r.scrapedIdsBySourceSince source cutoff with
  | .error _ => false
  | .ok ids => decide (ids.length < 10)

/-- `OrchestrationScheduler.should_trigger_processing` (scheduler.py lines
122-139): set difference of scraped ids and processed origin ids for the
source; trigger iff its size is `> 5`; any exception yields `False`. -/
def should_trigger_processing (r : Repo) (source : String) : Bool :=
  match r.scrapedIdsBySource source with
  | .error _ => false
  | .ok scraped_ids =>
    match r.processedOriginIdsBySource source with
    | .error _ => false
    | .ok processed_ids =>
      decide (5 < (scraped_ids.toFinset \ processed_ids.toFinset).card)

/-- `OrchestrationScheduler.should_trigger_training` (scheduler.py lines
141-165): count training-ready rows; if the most recent training job is less
than 24h old, `False`; otherwise trigger iff the count reaches the threshold
(`AUTO_TRAIN_THRESHOLD`, default 1000); any exception — repository read
failure or timestamp parse/arithmetic raise — yields `False`. -/
def should_trigger_training (r : Repo) (threshold : Nat) (now : Int) : Bool :=
  match r.trainingReadyIdList with
  | .error _ => false
  | .ok ready =>
    match r.lastTrainingCreatedAt with
    | .error _ => false
    | .ok none => decide (threshold ≤ ready.length)
    | .ok (some ts) =>
      match ts.pyParse with
      | none => false
      | some last =>
        if now - last < hours 24 then false
        else decide (threshold ≤ ready.length)

/-- Default of the `AUTO_TRAIN_THRESHOLD` environment variable. -/
def AUTO_TRAIN_THRESHOLD_default : Nat := 1000

/-- Number of raw items for `source` created within the trailing 6-hour
window ending at `now` (the window is the DB-side filter
`created_at >= now - 6h`). -/
def recentRawCount (db : Database) (source : String) (now : Int) : Nat :=
  db.scraped_content.countP
    (fun row => row.source == source && decide (now - hours 6 ≤ row.created_at.dbval))

/-- The set of raw item ids for `source`. -/
def rawIdSet (db : Database) (source : String) : Finset Nat :=
  ((db.scraped_content.filter (fun row => row.source == source)).map (·.id)).toFinset

/-- The set of origin ids of the processed items for `source`. -/
def processedOriginIdSet (db : Database) (source : String) : Finset Nat :=
  ((db.processed_content.filter (fun row => row.source == source)).map (·.original_id)).toFinset

/-- Number of unprocessed items for `source`: cardinality of the set
difference of raw ids and processed origin ids. -/
def unprocessedCount (db : Database) (source : String) : Nat :=
  (rawIdSet db source \ processedOriginIdSet db source).card

/-- Global count of processed items flagged training-ready. -/
def trainingReadyCount (db : Database) : Nat :=
  db.processed_content.countP (·.is_training_ready)

theorem honest_scrapedIdsBySourceSince (db : Database) (source : String) (cutoff : Int) :
    (Repo.honest db).scrapedIdsBySourceSince source cutoff =
      .ok ((db.scraped_content.filter
        (fun row => row.source == source && decide (cutoff ≤ row.created_at.dbval))).map (·.id)) :=
  rfl

/-- Claim C1: for every source, `should_trigger_scraping` (on a repository
whose reads succeed) returns true iff the number of raw items for that source
created within the trailing 6-hour window is strictly less than 10; in
particular the second conjunct makes the trigger literally the decision
`recentRawCount < 10`, so at exactly 10 recent items it is false. -/
theorem should_trigger_scraping_iff_recent_lt_ten
    (db : Database) (now : Int) (source : String) :
    (should_trigger_scraping (Repo.honest db) now source = true ↔
      recentRawCount db source now < 10) ∧
    should_trigger_scraping (Repo.honest db) now source =
      decide (recentRawCount db source now < 10) := by
  have key : should_trigger_scraping (Repo.honest db) now source =
      decide (recentRawCount db source now < 10) := by
    unfold should_trigger_scraping recentRawCount
    simp only [honest_scrapedIdsBySourceSince]
    simp [List.countP_eq_length_filter]
  exact ⟨by rw [key]; exact decide_eq_true_iff, key⟩

theorem honest_scrapedIdsBySource (db : Database) (source : String) :
    (Repo.honest db).scrapedIdsBySource source =
      .ok ((db.scraped_content.filter (fun row => row.source == source)).map (·.id)) :=
  rfl

theorem honest_processedOriginIdsBySource (db : Database) (source : String) :
    (Repo.honest db).processedOriginIdsBySource source =
      .ok ((db.processed_content.filter (fun row => row.source == source)).map (·.original_id)) :=
  rfl

theorem sdiff_card_eq_card_sub_inter_card (s t : Finset Nat) :
    (s \ t).card = s.card - (s ∩ t).card := by
  have h : s \ t = s \ (s ∩ t) := by
    ext x
    simp only [Finset.mem_sdiff, Finset.mem_inter]
    tauto
  rw [h, Finset.card_sdiff Finset.inter_subset_left]

/-- Claim C2: for every source, `should_trigger_processing` (on a repository
whose reads succeed) computes the unprocessed count as the cardinality of the
set difference between the raw item ids of the source and the processed
origin ids of its processed items — which equals `|raw| - |raw ∩ processedOrigins|`, not a
subtraction of the two totals — and triggers iff that count is strictly
greater than 5 (so 5 gives false and 6 gives true, by the decide equation). -/
theorem should_trigger_processing_iff_unprocessed_gt_five
    (db : Database) (source : String) :
    (should_trigger_processing (Repo.honest db) source = true ↔
      5 < unprocessedCount db source) ∧
    should_trigger_processing (Repo.honest db) source =
      decide (5 < unprocessedCount db source) ∧
    unprocessedCount db source =
      (rawIdSet db source).card - (rawIdSet db source ∩ processedOriginIdSet db source).card := by
  have key : should_trigger_processing (Repo.honest db) source =
      decide (5 < unprocessedCount db source) := by
    unfold should_trigger_processing unprocessedCount rawIdSet processedOriginIdSet
    simp only [honest_scrapedIdsBySource, honest_processedOriginIdsBySource]
  refine ⟨by rw [key]; exact decide_eq_true_iff, key, ?_⟩
  exact sdiff_card_eq_card_sub_inter_card _ _

theorem honest_trainingReadyIdList (db : Database) :
    (Repo.honest db).trainingReadyIdList =
      .ok ((db.processed_content.filter (·.is_training_ready)).map (·.id)) :=
  rfl

theorem honest_lastTrainingCreatedAt (db : Database) :
    (Repo.honest db).lastTrainingCreatedAt = .ok (latestTrainingJob db) :=
  rfl

theorem trainingReadyCount_eq_length (db : Database) :
    ((db.processed_content.filter (·.is_training_ready)).map
      (fun row : ProcessedRow => row.id)).length = trainingReadyCount db := by
  unfold trainingReadyCount
  simp [List.countP_eq_length_filter]

/-- Claim C3: `should_trigger_training` (on a repository whose reads succeed)
returns false whenever the time since the `created_at` of the most recent
training job is strictly below 24 hours, for every readiness count; and when
no cooldown is active (no prior training job, or at least 24h elapsed), it
returns true iff the global training-ready count reaches the threshold
(default `AUTO_TRAIN_THRESHOLD_default = 1000`, so 999 ready gives false and
1000 gives true by the iff). -/
theorem should_trigger_training_cooldown_and_threshold
    (db : Database) (threshold : Nat) (now : Int) :
    (∀ ts last, latestTrainingJob db = some ts → ts.pyParse = some last →
      now - last < hours 24 →
      should_trigger_training (Repo.honest db) threshold now = false) ∧
    ((latestTrainingJob db = none ∨
        ∃ ts last, latestTrainingJob db = some ts ∧ ts.pyParse = some last ∧
          hours 24 ≤ now - last) →
      (should_trigger_training (Repo.honest db) threshold now = true ↔
        threshold ≤ trainingReadyCount db)) := by
  constructor
  · intro ts last hts hparse hcool
    unfold should_trigger_training
    simp only [honest_trainingReadyIdList, honest_lastTrainingCreatedAt, hts, hparse]
    simp [hcool]
  · intro hno
    unfold should_trigger_training
    rcases hno with hnone | ⟨ts, last, hts, hparse, helapsed⟩
    · simp only [honest_trainingReadyIdList, honest_lastTrainingCreatedAt, hnone]
      rw [trainingReadyCount_eq_length]
      exact decide_eq_true_iff
    · simp only [honest_trainingReadyIdList, honest_lastTrainingCreatedAt, hts, hparse]
      rw [if_neg (by omega)]
      rw [trainingReadyCount_eq_length]
      exact decide_eq_true_iff

def tsW3 : Timestamp := ⟨0, some 0⟩

def dbW3 : Database := ⟨[], [⟨1, 1, "tech_news", true, 1⟩], [⟨tsW3⟩], []⟩

/-- Witness for the claim C3 theorem: on a database holding one training-ready
item and one training job started at instant 0, with threshold 1, the
trigger is false one hour after the job (cooldown) and true 25 hours after
(threshold met). -/
theorem should_trigger_training_cooldown_and_threshold_witness :
    should_trigger_training (Repo.honest dbW3) 1 (hours 1) = false ∧
    should_trigger_training (Repo.honest dbW3) 1 (hours 25) = true := by
  constructor
  · exact (should_trigger_training_cooldown_and_threshold dbW3 1 (hours 1)).1
      tsW3 0 rfl rfl (by decide)
  · exact ((should_trigger_training_cooldown_and_threshold dbW3 1 (hours 25)).2
      (Or.inr ⟨tsW3, 0, rfl, rfl, by decide⟩)).mpr (by decide)

/-- One entry of a redis queue, as `Queue.enqueue(func, arg, job_timeout)`
creates it. -/
structure QueueJob where
  func : String
  arg : Option String
  job_timeout : String
  deriving DecidableEq

/-- The scraping job submitted by `schedule_scraping_job` (timeout 1h). -/
def scrapeJobOf (source : String) : QueueJob :=
  ⟨"data_collection.scraper.WebScraper.scrape_source", some source, "1h"⟩

/-- The processing job submitted by `schedule_processing_job` (timeout 2h). -/
def processJobOf (source : String) : QueueJob :=
  ⟨"data_processing.processor.DataProcessor.process_source_data", some source, "2h"⟩

/-- The training job submitted by `schedule_training_job` (timeout 6h). -/
def trainJobItem : QueueJob :=
  ⟨"model_training.train.ModelTrainer.train_model", none, "6h"⟩

/-- Observable state of the scheduler process: the repository, the three
redis queues, the Prometheus counters and gauge (indexed by the `job_type`
label), and the failure oracles for queue operations (`enqueueFails name`
models `Queue.enqueue` raising on the queue of that name, `queueLenFails
name` models `len(queue)` raising). -/
structure World where
  repo : Repo
  scraping_queue : List QueueJob
  processing_queue : List QueueJob
  training_queue : List QueueJob
  scheduled_jobs_total : String → Nat
  failed_jobs_total : String → Nat
  active_jobs : String → Nat
  enqueueFails : String → Bool
  queueLenFails : String → Bool

/-- `Counter.labels(job_type=k).inc()`. -/
def bump (f : String → Nat) (k : String) : String → Nat :=
  fun x => if x = k then f x + 1 else f x

/-- `Gauge.labels(job_type=k).set(v)`. -/
def setGauge (f : String → Nat) (k : String) (v : Nat) : String → Nat :=
  fun x => if x = k then v else f x

/-- `OrchestrationScheduler.schedule_scraping_job` (scheduler.py lines
167-181): enqueue one scraping job with timeout 1h and bump
`scheduled_jobs_total`; if the enqueue raises, bump `failed_jobs_total`
instead; the exception never propagates (the function is total). -/
def schedule_scraping_job (w : World) (source : String) : World :=
  if w.enqueueFails "scraping" then
    { w with failed_jobs_total := bump w.failed_jobs_total "scraping" }
  else
    { w with
      scraping_queue := w.scraping_queue ++ [scrapeJobOf source],
      scheduled_jobs_total := bump w.scheduled_jobs_total "scraping" }

/-- `OrchestrationScheduler.schedule_processing_job` (scheduler.py lines
183-197): enqueue one processing job with timeout 2h, same counter policy. -/
def schedule_processing_job (w : World) (source : String) : World :=
  if w.enqueueFails "processing" then
    { w with failed_jobs_total := bump w.failed_jobs_total "processing" }
  else
    { w with
      processing_queue := w.processing_queue ++ [processJobOf source],
      scheduled_jobs_total := bump w.scheduled_jobs_total "processing" }

/-- `OrchestrationScheduler.schedule_training_job` (scheduler.py lines
199-212): enqueue one training job with timeout 6h, same counter policy. -/
def schedule_training_job (w : World) : World :=
  if w.enqueueFails "training" then
    { w with failed_jobs_total := bump w.failed_jobs_total "training" }
  else
    { w with
      training_queue := w.training_queue ++ [trainJobItem],
      scheduled_jobs_total := bump w.scheduled_jobs_total "training" }

/-- Claim C5: each dispatcher function performs exactly one queue-submission
call, to its own queue with the stage-appropriate timeout (scrape 1h, process
2h, train 6h — carried by `scrapeJobOf`, `processJobOf`, `trainJobItem`), and
bumps `scheduled_jobs_total` for that job type; when the enqueue itself
raises, it instead bumps `failed_jobs_total` for that job type, submits
nothing, and returns normally (the error does not propagate, so the cycle
continues to the next source/stage). -/
theorem dispatcher_one_submission_and_counters (w : World) (source : String) :
    ((schedule_scraping_job w source).scraping_queue =
        (if w.enqueueFails "scraping" then w.scraping_queue
         else w.scraping_queue ++ [scrapeJobOf source]) ∧
      (schedule_scraping_job w source).processing_queue = w.processing_queue ∧
      (schedule_scraping_job w source).training_queue = w.training_queue ∧
      (schedule_scraping_job w source).scheduled_jobs_total "scraping" =
        (if w.enqueueFails "scraping" then w.scheduled_jobs_total "scraping"
         else w.scheduled_jobs_total "scraping" + 1) ∧
      (schedule_scraping_job w source).failed_jobs_total "scraping" =
        (if w.enqueueFails "scraping" then w.failed_jobs_total "scraping" + 1
         else w.failed_jobs_total "scraping")) ∧
    ((schedule_processing_job w source).processing_queue =
        (if w.enqueueFails "processing" then w.processing_queue
         else w.processing_queue ++ [processJobOf source]) ∧
      (schedule_processing_job w source).scraping_queue = w.scraping_queue ∧
      (schedule_processing_job w source).training_queue = w.training_queue ∧
      (schedule_processing_job w source).scheduled_jobs_total "processing" =
        (if w.enqueueFails "processing" then w.scheduled_jobs_total "processing"
         else w.scheduled_jobs_total "processing" + 1) ∧
      (schedule_processing_job w source).failed_jobs_total "processing" =
        (if w.enqueueFails "processing" then w.failed_jobs_total "processing" + 1
         else w.failed_jobs_total "processing")) ∧
    ((schedule_training_job w).training_queue =
        (if w.enqueueFails "training" then w.training_queue
         else w.training_queue ++ [trainJobItem]) ∧
      (schedule_training_job w).scraping_queue = w.scraping_queue ∧
      (schedule_training_job w).processing_queue = w.processing_queue ∧
      (schedule_training_job w).scheduled_jobs_total "training" =
        (if w.enqueueFails "training" then w.scheduled_jobs_total "training"
         else w.scheduled_jobs_total "training" + 1) ∧
      (schedule_training_job w).failed_jobs_total "training" =
        (if w.enqueueFails "training" then w.failed_jobs_total "training" + 1
         else w.failed_jobs_total "training")) := by
  unfold schedule_scraping_job schedule_processing_job schedule_training_job bump
  by_cases h1 : w.enqueueFails "scraping" <;>
    by_cases h2 : w.enqueueFails "processing" <;>
      by_cases h3 : w.enqueueFails "training" <;>
        simp [h1, h2, h3]

/-- Monitoring-cycle step `if self.should_trigger_scraping(source):
self.schedule_scraping_job(source)` (scheduler.py lines 226-227). -/
def scrapeCheck (now : Int) (w : World) (source : String) : World :=
  if should_trigger_scraping w.repo now source then schedule_scraping_job w source else w

/-- Monitoring-cycle step `if self.should_trigger_processing(source):
self.schedule_processing_job(source)` (scheduler.py lines 230-231). -/
def processCheck (w : World) (source : String) : World :=
  if should_trigger_processing w.repo source then schedule_processing_job w source else w

/-- The per-source body of the monitoring cycle (scheduler.py lines 224-231):
check the scrape trigger and dispatch, then the process trigger and
dispatch. -/
def evalSource (now : Int) (w : World) (source : String) : World :=
  processCheck (scrapeCheck now w source) source

/-- The fixed source list of the monitoring cycle (scheduler.py line 222). -/
def knownSources : List String := ["tech_news", "ai_research", "programming_blogs"]

/-- Per-source scraped statistics dict entry of `get_system_stats`. -/
structure ScrapedStat where
  total : Nat
  recent : Nat
  deriving DecidableEq

/-- Per-source processed statistics before average computation. -/
structure ProcessedAgg where
  total : Nat
  training_ready : Nat
  quality_scores : List ℚ
  deriving DecidableEq

/-- Per-source processed statistics dict entry of `get_system_stats`. -/
structure ProcessedStat where
  total : Nat
  training_ready : Nat
  avg_quality : ℚ
  deriving DecidableEq

/-- The dict returned by `get_system_stats` on success; the association lists
keep Python dict insertion order. -/
structure SystemStats where
  scraped : List (String × ScrapedStat)
  processed : List (String × ProcessedStat)
  timestamp : Int
  deriving DecidableEq

/-- Python dict update `if k not in d: d[k] = d0` followed by mutating
`d[k]` with `f`; preserves insertion order. -/
def bumpEntry (f : α → α) (d0 : α) : List (String × α) → String → List (String × α)
  | [], k => [(k, f d0)]
  | (k0, v) :: rest, k =>
    if k0 = k then (k0, f v) :: rest else (k0, v) :: bumpEntry f d0 rest k

/-- One iteration of the scraped-stats loop (scheduler.py lines 63-72):
parse `created_at` (a raise aborts the whole `try` block) and bump `total`,
and `recent` when the item is younger than 24 hours. -/
def scrapedStep (now : Int) (acc : List (String × ScrapedStat)) (item : ScrapedRow) :
    Except Unit (List (String × ScrapedStat)) :=
  match item.created_at.pyParse with
  | none => .error ()
  | some t =>
    .ok (bumpEntry
      (fun s => { total := s.total + 1,
                  recent := s.recent + (if now - hours 24 < t then 1 else 0) })
      ⟨0, 0⟩ acc item.source)

/-- One iteration of the processed-stats loop (scheduler.py lines 79-87). -/
def processedStep (acc : List (String × ProcessedAgg)) (item : ProcessedRow) :
    List (String × ProcessedAgg) :=
  bumpEntry
    (fun a => { total := a.total + 1,
                training_ready := a.training_ready + (if item.is_training_ready then 1 else 0),
                quality_scores := a.quality_scores ++ [item.quality_score] })
    ⟨0, 0, []⟩ acc item.source

/-- Average-quality computation (scheduler.py lines 90-93). -/
def finalizeProcessed (a : ProcessedAgg) : ProcessedStat :=
  { total := a.total, training_ready := a.training_ready,
    avg_quality :=
      if a.quality_scores = [] then 0
      else a.quality_scores.sum / (a.quality_scores.length : ℚ) }

/-- The scraped-stats `for` loop (scheduler.py lines 63-72): a parse raise at
any row aborts the whole aggregation. -/
def foldScraped (now : Int) (acc : List (String × ScrapedStat)) :
    List ScrapedRow → Except Unit (List (String × ScrapedStat))
  | [] => .ok acc
  | x :: xs =>
    match scrapedStep now acc x with
    | .error e => .error e
    | .ok acc2 => foldScraped now acc2 xs

/-- The `try` block of `get_system_stats` (scheduler.py lines 57-99): any
repository read failure or timestamp parse/comparison raise surfaces as
`Except.error`. -/
def get_system_stats_inner (r : Repo) (now : Int) : Except Unit SystemStats :=
  match r.scrapedAllRows with
  | .error e => .error e
  | .ok scrapedRows =>
    match foldScraped now [] scrapedRows with
    | .error e => .error e
    | .ok scraped =>
      match r.processedAllRows with
      | .error e => .error e
      | .ok processedRows =>
        .ok { scraped := scraped,
              processed := (processedRows.foldl processedStep []).map
                (fun kv => (kv.1, finalizeProcessed kv.2)),
              timestamp := now }

/-- `OrchestrationScheduler.get_system_stats` (scheduler.py lines 55-103):
the whole body is one `try`; on any exception the function returns the empty
dict `{}`, modelled as `none`. -/
def get_system_stats (r : Repo) (now : Int) : Option SystemStats :=
  match get_system_stats_inner r now with
  | .ok s => some s
  | .error _ => none

/-- `len(queue)` for the gauge refresh; raises when redis is unreachable. -/
def queue_len (fails : Bool) (q : List QueueJob) : Except Unit Nat :=
  if fails then .error () else .ok q.length

/-- The gauge-refresh loop closing the monitoring cycle (scheduler.py lines
238-243).  It is NOT inside any `try`: a raise propagates. -/
def update_queue_gauges (w : World) : Except Unit World :=
  match queue_len (w.queueLenFails "scraping") w.scraping_queue with
  | .error e => .error e
  | .ok n1 =>
    let w1 := { w with active_jobs := setGauge w.active_jobs "scraping" n1 }
    match queue_len (w1.queueLenFails "processing") w1.processing_queue with
    | .error e => .error e
    | .ok n2 =>
      let w2 := { w1 with active_jobs := setGauge w1.active_jobs "processing" n2 }
      match queue_len (w2.queueLenFails "training") w2.training_queue with
      | .error e => .error e
      | .ok n3 => .ok { w2 with active_jobs := setGauge w2.active_jobs "training" n3 }

/-- `OrchestrationScheduler.monitor_and_schedule` over an explicit source
list (scheduler.py lines 214-245): fetch stats (result unused), evaluate and
dispatch scrape/process per source, then the global train trigger, then
refresh the gauges.  The result is `Except` because the gauge refresh can
raise. -/
def monitorWith (srcs : List String) (w : World) (now : Int) (threshold : Nat) :
    Except Unit World :=
  let _stats := get_system_stats w.repo now
  let w1 := srcs.foldl (evalSource now) w
  let w2 := if should_trigger_training w1.repo threshold now then schedule_training_job w1 else w1
  update_queue_gauges w2

/-- `OrchestrationScheduler.monitor_and_schedule` (scheduler.py lines
214-245). -/
def monitor_and_schedule (w : World) (now : Int) (threshold : Nat) : Except Unit World :=
  monitorWith knownSources w now threshold

/-- `OrchestrationScheduler.cleanup_old_jobs` (scheduler.py lines 247-263),
success path: delete `training_jobs` rows with `created_at < now - 7d` and
`api_usage` rows with `created_at < now - 30d` (both DB-side `.lt` filters
on the stored timestamps). -/
def cleanup_old_jobs (w : World) (now : Int) : World :=
  { w with repo := { w.repo with db :=
      { w.repo.db with
        training_jobs := w.repo.db.training_jobs.filter
          (fun row => !decide (row.created_at.dbval < now - days 7)),
        api_usage := w.repo.db.api_usage.filter
          (fun row => !decide (row.created_at < now - days 30)) } } }

/-- Number of in-flight jobs in a queue targeting `target` (all entries of
one queue share the job type). -/
def inFlightCount (q : List QueueJob) (target : Option String) : Nat :=
  q.countP (fun j => j.arg == target)

def emptyDb : Database := ⟨[], [], [], []⟩

/-- A scheduler state in which one scraping job for `tech_news` is already
in flight (dispatched by an earlier cycle and not yet consumed). -/
def wDup : World :=
  { repo := Repo.honest emptyDb,
    scraping_queue := [scrapeJobOf "tech_news"],
    processing_queue := [],
    training_queue := [],
    scheduled_jobs_total := fun _ => 0,
    failed_jobs_total := fun _ => 0,
    active_jobs := fun _ => 0,
    enqueueFails := fun _ => false,
    queueLenFails := fun _ => false }

/-- Claim C6 counterexample: with one scraping job for `tech_news` already in
flight, the dispatcher submits another one without consulting any JobRecord,
leaving two in-flight jobs of the same (jobType, targetSource) pair — so the
claimed at-most-one invariant, and the claimed pre-submission JobRecord
check, do not hold. -/
theorem dispatcher_duplicates_in_flight_pair :
    inFlightCount (schedule_scraping_job wDup "tech_news").scraping_queue
      (some "tech_news") = 2 := by
  decide

/-- Claim C6 amended: the Dispatcher performs no JobRecord status check
before a queue submission — its repository component is untouched and its
whole result is independent of the repository — and it appends its job
unconditionally whenever the enqueue succeeds, whatever jobs are already in
flight; so duplicate in-flight (jobType, targetSource) pairs are possible
and the only throttling is the trigger thresholds. -/
theorem dispatcher_no_jobrecord_check (w : World) (r : Repo) (source : String) :
    (schedule_scraping_job w source).repo = w.repo ∧
    (schedule_processing_job w source).repo = w.repo ∧
    (schedule_training_job w).repo = w.repo ∧
    schedule_scraping_job { w with repo := r } source =
      { schedule_scraping_job w source with repo := r } ∧
    schedule_processing_job { w with repo := r } source =
      { schedule_processing_job w source with repo := r } ∧
    schedule_training_job { w with repo := r } =
      { schedule_training_job w with repo := r } ∧
    (schedule_scraping_job w source).scraping_queue =
      (if w.enqueueFails "scraping" then w.scraping_queue
       else w.scraping_queue ++ [scrapeJobOf source]) ∧
    (schedule_processing_job w source).processing_queue =
      (if w.enqueueFails "processing" then w.processing_queue
       else w.processing_queue ++ [processJobOf source]) ∧
    (schedule_training_job w).training_queue =
      (if w.enqueueFails "training" then w.training_queue
       else w.training_queue ++ [trainJobItem]) := by
  unfold schedule_scraping_job schedule_processing_job schedule_training_job
  by_cases h1 : w.enqueueFails "scraping" <;>
    by_cases h2 : w.enqueueFails "processing" <;>
      by_cases h3 : w.enqueueFails "training" <;>
        simp [h1, h2, h3]

/-- Claim C7: the retention sweep keeps a `training_jobs` row iff it is not
strictly older than 7 days, and an `api_usage` row iff it is not strictly
older than 30 days — so it deletes exactly the rows strictly past each
boundary and no row at or after it, and touches nothing else of the world
(last conjunct). -/
theorem cleanup_deletes_exactly_aged_rows
    (w : World) (now : Int) (j : TrainingJobRow) (u : UsageRow) :
    (j ∈ (cleanup_old_jobs w now).repo.db.training_jobs ↔
      j ∈ w.repo.db.training_jobs ∧ ¬(j.created_at.dbval < now - days 7)) ∧
    (u ∈ (cleanup_old_jobs w now).repo.db.api_usage ↔
      u ∈ w.repo.db.api_usage ∧ ¬(u.created_at < now - days 30)) ∧
    (cleanup_old_jobs w now) = { w with repo := { w.repo with db :=
      { w.repo.db with
        training_jobs := (cleanup_old_jobs w now).repo.db.training_jobs,
        api_usage := (cleanup_old_jobs w now).repo.db.api_usage } } } := by
  refine ⟨?_, ?_, rfl⟩
  · unfold cleanup_old_jobs
    simp [List.mem_filter]
  · unfold cleanup_old_jobs
    simp [List.mem_filter]

theorem schedule_scraping_job_repo (w : World) (s : String) :
    (schedule_scraping_job w s).repo = w.repo := by
  unfold schedule_scraping_job
  split <;> rfl

theorem schedule_processing_job_repo (w : World) (s : String) :
    (schedule_processing_job w s).repo = w.repo := by
  unfold schedule_processing_job
  split <;> rfl

theorem schedule_training_job_repo (w : World) :
    (schedule_training_job w).repo = w.repo := by
  unfold schedule_training_job
  split <;> rfl

theorem scrapeCheck_repo (now : Int) (w : World) (s : String) :
    (scrapeCheck now w s).repo = w.repo := by
  unfold scrapeCheck
  split
  · exact schedule_scraping_job_repo w s
  · rfl

theorem processCheck_repo (w : World) (s : String) :
    (processCheck w s).repo = w.repo := by
  unfold processCheck
  split
  · exact schedule_processing_job_repo w s
  · rfl

theorem evalSource_repo (now : Int) (w : World) (s : String) :
    (evalSource now w s).repo = w.repo := by
  unfold evalSource
  rw [processCheck_repo, scrapeCheck_repo]

theorem should_trigger_scraping_fail (r : Repo) (now : Int) (source : String)
    (h : r.fails (.scrapedBySourceSince source) = true) :
    should_trigger_scraping r now source = false := by
  unfold should_trigger_scraping Repo.scrapedIdsBySourceSince
  rw [h]
  rfl

theorem should_trigger_processing_fail1 (r : Repo) (source : String)
    (h : r.fails (.scrapedBySource source) = true) :
    should_trigger_processing r source = false := by
  unfold should_trigger_processing Repo.scrapedIdsBySource
  rw [h]
  rfl

theorem should_trigger_processing_fail2 (r : Repo) (source : String)
    (h : r.fails (.processedOriginBySource source) = true) :
    should_trigger_processing r source = false := by
  unfold should_trigger_processing
  split
  · rfl
  · unfold Repo.processedOriginIdsBySource
    rw [h]
    rfl

theorem should_trigger_training_fail1 (r : Repo) (threshold : Nat) (now : Int)
    (h : r.fails .trainingReadyIds = true) :
    should_trigger_training r threshold now = false := by
  unfold should_trigger_training Repo.trainingReadyIdList
  rw [h]
  rfl

theorem should_trigger_training_fail2 (r : Repo) (threshold : Nat) (now : Int)
    (h : r.fails .lastTrainingJob = true) :
    should_trigger_training r threshold now = false := by
  unfold should_trigger_training
  split
  · rfl
  · unfold Repo.lastTrainingCreatedAt
    rw [h]
    rfl

/-- Which source a query is keyed to, if any. -/
def sourceOfQuery : QueryId → Option String
  | .scrapedBySourceSince s => some s
  | .scrapedBySource s => some s
  | .processedOriginBySource s => some s
  | .trainingReadyIds => none
  | .lastTrainingJob => none
  | .scrapedAll => none
  | .processedAll => none

/-- Failure oracle making exactly the reads keyed to source `bad` fail, on
top of an arbitrary oracle `f`. -/
def failSource (f : QueryId → Bool) (bad : String) : QueryId → Bool :=
  fun q => if sourceOfQuery q = some bad then true else f q

/-- Failure oracle additionally failing the single query `bad`. -/
def forceFail (f : QueryId → Bool) (bad : QueryId) : QueryId → Bool :=
  fun q => if q = bad then true else f q

/-- `w` with every repository read for source `ai_research` failing. -/
def aiFail (w : World) : World :=
  { w with repo := { w.repo with fails := failSource w.repo.fails "ai_research" } }

theorem evalSource_ai_noop (now : Int) (w : World)
    (h : ∀ q, sourceOfQuery q = some "ai_research" → w.repo.fails q = true) :
    evalSource now w "ai_research" = w := by
  unfold evalSource
  have h1 : scrapeCheck now w "ai_research" = w := by
    unfold scrapeCheck
    rw [should_trigger_scraping_fail w.repo now "ai_research" (h _ rfl)]
    rfl
  rw [h1]
  unfold processCheck
  rw [should_trigger_processing_fail1 w.repo "ai_research" (h _ rfl)]
  rfl

/-- Claim C4: every trigger fails closed — whatever the rest of the failure
oracle does, a failing read of any of the five queries a trigger makes, or a
training-job timestamp whose parse raises, yields `false` instead of
propagating — and a failing source is isolated: when every read for
`ai_research` fails, the monitoring cycle behaves exactly as the cycle over
the remaining sources `tech_news` and `programming_blogs`. -/
theorem trigger_fail_closed_and_source_isolation
    (db : Database) (f : QueryId → Bool) (now : Int) (thr : Nat)
    (source : String) (t : Int) (w : World) :
    should_trigger_scraping ⟨db, forceFail f (.scrapedBySourceSince source)⟩ now source = false ∧
    should_trigger_processing ⟨db, forceFail f (.scrapedBySource source)⟩ source = false ∧
    should_trigger_processing ⟨db, forceFail f (.processedOriginBySource source)⟩ source = false ∧
    should_trigger_training ⟨db, forceFail f .trainingReadyIds⟩ thr now = false ∧
    should_trigger_training ⟨db, forceFail f .lastTrainingJob⟩ thr now = false ∧
    should_trigger_training (Repo.honest { db with training_jobs := [⟨⟨t, none⟩⟩] }) thr now = false ∧
    monitorWith knownSources (aiFail w) now thr =
      monitorWith ["tech_news", "programming_blogs"] (aiFail w) now thr := by
  refine ⟨?_, ?_, ?_, ?_, ?_, ?_, ?_⟩
  · exact should_trigger_scraping_fail _ now source (by simp [forceFail])
  · exact should_trigger_processing_fail1 _ source (by simp [forceFail])
  · exact should_trigger_processing_fail2 _ source (by simp [forceFail])
  · exact should_trigger_training_fail1 _ thr now (by simp [forceFail])
  · exact should_trigger_training_fail2 _ thr now (by simp [forceFail])
  · unfold should_trigger_training
    simp only [honest_trainingReadyIdList, honest_lastTrainingCreatedAt]
    rfl
  · have hfails : ∀ q, sourceOfQuery q = some "ai_research" →
        (evalSource now (aiFail w) "tech_news").repo.fails q = true := by
      intro q hq
      rw [evalSource_repo]
      show failSource w.repo.fails "ai_research" q = true
      unfold failSource
      rw [hq]
      rfl
    unfold monitorWith knownSources
    simp only [List.foldl_cons, List.foldl_nil]
    rw [evalSource_ai_noop now _ hfails]

/-- A scheduler state in which everything is healthy except that reading the
length of the scraping queue raises (redis unreachable at the gauge-refresh
step). -/
def wGauge : World :=
  { repo := Repo.honest emptyDb,
    scraping_queue := [],
    processing_queue := [],
    training_queue := [],
    scheduled_jobs_total := fun _ => 0,
    failed_jobs_total := fun _ => 0,
    active_jobs := fun _ => 0,
    enqueueFails := fun _ => false,
    queueLenFails := fun s => s == "scraping" }

/-- Claim C8: the code violates the claim.  The gauge-refresh loop at the end
of `monitor_and_schedule` (scheduler.py lines 238-243) is not inside any
`try`, and neither the initial `monitor_and_schedule()` call nor
`schedule.run_pending()` in `run_scheduler` catches, so an exception raised
while reading a queue length propagates out of the monitoring cycle: on a
state where `len(scraping_queue)` raises, the cycle ends in an uncaught
exception instead of reaching the next tick. -/
theorem monitor_cycle_crashes_on_gauge_read :
    monitor_and_schedule wGauge 0 AUTO_TRAIN_THRESHOLD_default = .error () := by
  rfl

theorem foldl_evalSource_repo (now : Int) (srcs : List String) (w : World) :
    (srcs.foldl (evalSource now) w).repo = w.repo := by
  induction srcs generalizing w with
  | nil => rfl
  | cons s rest ih => rw [List.foldl_cons, ih, evalSource_repo]

theorem update_queue_gauges_repo (w w2 : World) (h : update_queue_gauges w = .ok w2) :
    w2.repo = w.repo := by
  unfold update_queue_gauges queue_len at h
  by_cases h1 : w.queueLenFails "scraping" <;>
    by_cases h2 : w.queueLenFails "processing" <;>
      by_cases h3 : w.queueLenFails "training" <;>
        simp [h1, h2, h3] at h
  rw [← h]

/-- Claim C9: the scheduler never writes the `scraped_content` or
`processed_content` tables — the retention sweep leaves them untouched and
only removes rows (sublist) from `training_jobs` and `api_usage`, the
dispatcher functions leave the whole database untouched, and a monitoring
cycle leaves the whole database untouched (stated through `Except.map` so it
also covers the cycle that ends in the uncaught gauge exception). -/
theorem core_never_writes_content_tables (w : World) (now : Int) (thr : Nat) (source : String) :
    (cleanup_old_jobs w now).repo.db.scraped_content = w.repo.db.scraped_content ∧
    (cleanup_old_jobs w now).repo.db.processed_content = w.repo.db.processed_content ∧
    List.Sublist (cleanup_old_jobs w now).repo.db.training_jobs w.repo.db.training_jobs ∧
    List.Sublist (cleanup_old_jobs w now).repo.db.api_usage w.repo.db.api_usage ∧
    (schedule_scraping_job w source).repo.db = w.repo.db ∧
    (schedule_processing_job w source).repo.db = w.repo.db ∧
    (schedule_training_job w).repo.db = w.repo.db ∧
    (monitor_and_schedule w now thr).map (fun x => x.repo.db) =
      (monitor_and_schedule w now thr).map (fun _ => w.repo.db) := by
  refine ⟨rfl, rfl, List.filter_sublist _, List.filter_sublist _,
    by rw [schedule_scraping_job_repo], by rw [schedule_processing_job_repo],
    by rw [schedule_training_job_repo], ?_⟩
  have hw2 : ∀ w2 : World, w2.repo = w.repo →
      (update_queue_gauges w2).map (fun x => x.repo.db) =
        (update_queue_gauges w2).map (fun _ => w.repo.db) := by
    intro w2 h2
    cases hu : update_queue_gauges w2 with
    | error e => rfl
    | ok w3 =>
      have h3 : w3.repo = w2.repo := update_queue_gauges_repo w2 w3 hu
      show Except.ok w3.repo.db = Except.ok w.repo.db
      rw [h3, h2]
  unfold monitor_and_schedule monitorWith
  apply hw2
  split
  · rw [schedule_training_job_repo, foldl_evalSource_repo]
  · rw [foldl_evalSource_repo]

theorem foldScraped_ok (now : Int) (l : List ScrapedRow) (acc : List (String × ScrapedStat))
    (h : ∀ row ∈ l, row.created_at.pyParse ≠ none) :
    ∃ b, foldScraped now acc l = .ok b := by
  induction l generalizing acc with
  | nil => exact ⟨acc, rfl⟩
  | cons x xs ih =>
    cases hx : x.created_at.pyParse with
    | none => exact absurd hx (h x (List.mem_cons_self x xs))
    | some t =>
      simp only [foldScraped, scrapedStep, hx]
      exact ih _ (fun row hr => h row (List.mem_cons_of_mem x hr))

theorem foldScraped_err (now : Int) (l : List ScrapedRow) (acc : List (String × ScrapedStat))
    (h : ∃ row ∈ l, row.created_at.pyParse = none) :
    foldScraped now acc l = .error () := by
  induction l generalizing acc with
  | nil =>
    rcases h with ⟨row, hr, _⟩
    cases hr
  | cons x xs ih =>
    rcases h with ⟨row, hr, hnone⟩
    rcases List.mem_cons.mp hr with heq | hr2
    · subst heq
      simp only [foldScraped, scrapedStep, hnone]
    · cases hx : x.created_at.pyParse with
      | none => simp only [foldScraped, scrapedStep, hx]
      | some t =>
        simp only [foldScraped, scrapedStep, hx]
        exact ih _ ⟨row, hr2, hnone⟩

/-- Claim C10: `get_system_stats` is total at its interface — it returns an
`Option` (never an exception), yielding the empty dict (`none`) exactly when
its body raises internally, and that happens exactly when the scraped-rows
read fails, the timestamp of some scraped row fails Python parsing or comparison
(e.g. a timezone-offset timestamp against a naive `datetime.now()`), or the
processed-rows read fails; in every other case it returns the fully
aggregated statistics, never an incomplete dict. -/
theorem get_system_stats_total_and_empty_on_error (r : Repo) (now : Int) :
    (get_system_stats r now = none ↔ get_system_stats_inner r now = .error ()) ∧
    (get_system_stats r now = none ↔
      (r.fails .scrapedAll = true ∨
       (∃ row ∈ r.db.scraped_content, row.created_at.pyParse = none) ∨
       r.fails .processedAll = true)) := by
  have hlink : get_system_stats r now = none ↔ get_system_stats_inner r now = .error () := by
    unfold get_system_stats
    cases h : get_system_stats_inner r now with
    | error e => cases e; simp [h]
    | ok s => simp [h]
  refine ⟨hlink, hlink.trans ?_⟩
  unfold get_system_stats_inner Repo.scrapedAllRows Repo.processedAllRows
  by_cases h1 : r.fails .scrapedAll
  · simp [h1]
  · rw [if_neg h1]
    by_cases hbad : ∃ row ∈ r.db.scraped_content, row.created_at.pyParse = none
    · have herr := foldScraped_err now r.db.scraped_content [] hbad
      simp [herr, h1, hbad]
    · have hgood : ∀ row ∈ r.db.scraped_content, row.created_at.pyParse ≠ none := by
        intro row hr hn
        exact hbad ⟨row, hr, hn⟩
      obtain ⟨b, hb⟩ := foldScraped_ok now r.db.scraped_content [] hgood
      by_cases h2 : r.fails .processedAll
      · simp [hb, h1, h2, hbad]
      · simp [hb, h1, h2, hbad]
